/-
Verification of the HEVC CABAC residual-decoding core (libavcodec/hevc_cabac.c).

This file gives a shallow embedding in Lean 4 of the pieces of hevc_cabac.c
that the checked properties talk about:

  * the context-model tables (`elem_offset`, `init_values`) and
    `cabac_init_state`;
  * the bypass-bit binarizations `coeff_abs_level_remaining_decode` and
    `mvd_decode` (generic C paths);
  * the Rice-parameter / `stat_coeff` adaptation loop of
    `ff_hevc_hls_residual_coding` together with `update_rice`;
  * sign-data-hiding decision and application;
  * dequantization parameter derivation (flat and transquant-bypass cases)
    and `trans_scale_sat`;
  * the coefficient output buffer (memset followed by scattered writes).

C `int` arithmetic is modelled on ℤ; `>>` on a (possibly negative) `int` is
arithmetic shift, i.e. flooring division by a power of two, which is what gcc
implements and what the code relies on.  Where a multiplication can exceed
32 bits we wrap to the `int` range explicitly (`wrap32`).  Machine `uint8_t`
counters live in ℕ with explicit `% 256`.  Bypass bins are modelled as an
infinite bit sequence `f : ℕ → Bool` with a read position.
-/
import Mathlib

namespace HevcCabac

/-! ## C arithmetic helpers -/

/-- Arithmetic shift right of a C `int`: flooring division by `2^n`
(`Int` division in Lean is Euclidean, which coincides with flooring for a
positive divisor). -/
def asr (x : Int) (n : Nat) : Int := x / (2 ^ n : Int)

/-- Wrap an integer into the 32-bit two's-complement `int` range. -/
def wrap32 (x : Int) : Int := (x + 2 ^ 31) % 2 ^ 32 - 2 ^ 31

/-- Conversion of an `int` value to `int16_t` (gcc semantics: wrap). -/
def int16_cast (x : Int) : Int := (x + 2 ^ 15) % 2 ^ 16 - 2 ^ 15

/-- `av_clip(a, amin, amax)` from libavutil/common.h. -/
def av_clip (a amin amax : Int) : Int :=
  if a < amin then amin else if a > amax then amax else a

/-- `CABAC_MAX_BIN` from hevc_cabac.c. -/
def CABAC_MAX_BIN : Nat := 31

/-! ## Context-model tables (hevc_cabac.c) -/

/-- `elem_offset`: offset to ctxIdx 0 in `init_values` and the context-state
table, indexed by syntax element. -/
def elem_offset : List Nat :=
[
  0, 1, 2, 2, 2, 2, 2, 2, 5, 6, 9, 12, 13, 17,
  17, 18, 18, 18, 20, 21, 22, 27, 29, 31, 33, 35, 35, 35,
  36, 37, 40, 42, 46, 48, 50, 52, 70, 88, 88, 88, 92, 136,
  160, 166, 166, 166, 174, 176, 177
]

/-- Number of context states each syntax element owns: the gaps between
consecutive `elem_offset` entries (bypass-coded elements own none), with the
final element (`cu_chroma_qp_offset_idx`) owning the single state at 177. -/
def ctx_counts : List Nat :=
[
  1, 1, 0, 0, 0, 0, 0, 3, 1, 3, 3, 1, 4, 0,
  1, 0, 0, 2, 1, 1, 5, 2, 2, 2, 2, 0, 0, 1,
  1, 3, 2, 4, 2, 2, 2, 18, 18, 0, 0, 4, 44, 24,
  6, 0, 0, 8, 2, 1, 1
]

/-- Row 0 of `init_values[3][HEVC_CONTEXTS]` (init type 0); `CNU` = 154. -/
def init_values_0 : List Nat :=
[
  153, 200, 139, 141, 157, 154, 154, 154, 154, 154, 154, 154, 154, 184,
  154, 154, 154, 184, 63, 139, 154, 154, 154, 154, 154, 154, 154, 154,
  154, 154, 154, 154, 154, 154, 154, 154, 154, 153, 138, 138, 111, 141,
  94, 138, 182, 154, 139, 139, 139, 139, 139, 139, 110, 110, 124, 125,
  140, 153, 125, 127, 140, 109, 111, 143, 127, 111, 79, 108, 123, 63,
  110, 110, 124, 125, 140, 153, 125, 127, 140, 109, 111, 143, 127, 111,
  79, 108, 123, 63, 91, 171, 134, 141, 111, 111, 125, 110, 110, 94,
  124, 108, 124, 107, 125, 141, 179, 153, 125, 107, 125, 141, 179, 153,
  125, 107, 125, 141, 179, 153, 125, 140, 139, 182, 182, 152, 136, 152,
  136, 153, 136, 139, 111, 136, 139, 111, 141, 111, 140, 92, 137, 138,
  140, 152, 138, 139, 153, 74, 149, 92, 139, 107, 122, 152, 140, 179,
  166, 182, 140, 227, 122, 197, 138, 153, 136, 167, 152, 152, 154, 154,
  154, 154, 154, 154, 154, 154, 154, 154, 154, 154
]

/-- Row 1 of `init_values[3][HEVC_CONTEXTS]` (init type 1); `CNU` = 154. -/
def init_values_1 : List Nat :=
[
  153, 185, 107, 139, 126, 154, 197, 185, 201, 154, 154, 154, 149, 154,
  139, 154, 154, 154, 152, 139, 110, 122, 95, 79, 63, 31, 31, 153,
  153, 153, 153, 140, 198, 140, 198, 168, 79, 124, 138, 94, 153, 111,
  149, 107, 167, 154, 139, 139, 139, 139, 139, 139, 125, 110, 94, 110,
  95, 79, 125, 111, 110, 78, 110, 111, 111, 95, 94, 108, 123, 108,
  125, 110, 94, 110, 95, 79, 125, 111, 110, 78, 110, 111, 111, 95,
  94, 108, 123, 108, 121, 140, 61, 154, 155, 154, 139, 153, 139, 123,
  123, 63, 153, 166, 183, 140, 136, 153, 154, 166, 183, 140, 136, 153,
  154, 166, 183, 140, 136, 153, 154, 170, 153, 123, 123, 107, 121, 107,
  121, 167, 151, 183, 140, 151, 183, 140, 140, 140, 154, 196, 196, 167,
  154, 152, 167, 182, 182, 134, 149, 136, 153, 121, 136, 137, 169, 194,
  166, 167, 154, 167, 137, 182, 107, 167, 91, 122, 107, 167, 154, 154,
  154, 154, 154, 154, 154, 154, 154, 154, 154, 154
]

/-- Row 2 of `init_values[3][HEVC_CONTEXTS]` (init type 2); `CNU` = 154. -/
def init_values_2 : List Nat :=
[
  153, 160, 107, 139, 126, 154, 197, 185, 201, 154, 154, 154, 134, 154,
  139, 154, 154, 183, 152, 139, 154, 137, 95, 79, 63, 31, 31, 153,
  153, 153, 153, 169, 198, 169, 198, 168, 79, 224, 167, 122, 153, 111,
  149, 92, 167, 154, 139, 139, 139, 139, 139, 139, 125, 110, 124, 110,
  95, 94, 125, 111, 111, 79, 125, 126, 111, 111, 79, 108, 123, 93,
  125, 110, 124, 110, 95, 94, 125, 111, 111, 79, 125, 126, 111, 111,
  79, 108, 123, 93, 121, 140, 61, 154, 170, 154, 139, 153, 139, 123,
  123, 63, 124, 166, 183, 140, 136, 153, 154, 166, 183, 140, 136, 153,
  154, 166, 183, 140, 136, 153, 154, 170, 153, 138, 138, 122, 121, 122,
  121, 167, 151, 183, 140, 151, 183, 140, 140, 140, 154, 196, 167, 167,
  154, 152, 167, 182, 182, 134, 149, 136, 153, 121, 136, 122, 169, 208,
  166, 167, 154, 152, 167, 182, 107, 167, 91, 107, 107, 167, 154, 154,
  154, 154, 154, 154, 154, 154, 154, 154, 154, 154
]

/-- `init_values`, indexed by init type. -/
def init_values : List (List Nat) :=
[init_values_0, init_values_1, init_values_2]

/-! ## Context-state initialization (`cabac_init_state`) -/

/-- HEVC slice types with ffmpeg's numeric codes (hevc.h, outside src/:
`B_SLICE = 0`, `P_SLICE = 1`, `I_SLICE = 2`, consistent with the spec's
init-type mapping combined with the code's `2 - slice_type`). -/
inductive SliceTy | B | P | I
deriving DecidableEq

/-- Numeric code of a slice type. -/
def SliceTy.code : SliceTy → Nat
  | .B => 0
  | .P => 1
  | .I => 2

/-- Init-type selection of `cabac_init_state`:
`init_type = 2 - slice_type; if (cabac_init_flag && slice_type != I_SLICE)
init_type ^= 3;`. -/
def init_type (st : SliceTy) (cabac_init_flag : Bool) : Nat :=
  let it := 2 - st.code
  if cabac_init_flag ∧ st ≠ SliceTy.I then it ^^^ 3 else it

/-- The per-context computation of `cabac_init_state`.  `pre ^= pre >> 31`
is bit-twiddled one's complement for negative `pre` (arithmetic shift makes
`pre >> 31` equal `-1` exactly when `pre < 0`, and `x ^ -1 = -x - 1`). -/
def cabac_state_of (init_value : Nat) (slice_qp : Int) : Int :=
  let m : Int := (init_value >>> 4 : Nat) * 5 - 45
  let n : Int := ((init_value &&& 15 : Nat) <<< 3 : Nat) - 16
  let pre : Int := 2 * (asr (m * av_clip slice_qp 0 51) 4 + n) - 127
  let pre2 : Int := if pre < 0 then -pre - 1 else pre
  if pre2 > 124 then 124 + pre2 % 2 else pre2

/-- The context table produced by the loop of `cabac_init_state` for a given
init type. -/
def cabac_init_state (it : Fin 3) (slice_qp : Int) : List Int :=
  (init_values.getD it []).map (fun v => cabac_state_of v slice_qp)

/-- The claim's per-context formula, with `pre` replaced by its absolute
value `|pre|` (this is the formula under test; the code differs). -/
def spec_state_claimed (init_value : Nat) (slice_qp : Int) : Int :=
  let m : Int := (init_value >>> 4 : Nat) * 5 - 45
  let n : Int := ((init_value &&& 15 : Nat) <<< 3 : Nat) - 16
  let pre : Int := 2 * (asr (m * av_clip slice_qp 0 51) 4 + n) - 127
  let pre2 : Int := |pre|
  if pre2 > 124 then 124 + pre2 % 2 else pre2

/-- The H.265 standard form of the initial state: `preCtxState =
Clip3(1, 126, ((m * Clip3(0,51,qp)) >> 4) + n)`, encoded as
`(pStateIdx << 1) | valMps` with `pStateIdx = 63 - preCtxState, valMps = 0`
when `preCtxState <= 63` and `pStateIdx = preCtxState - 64, valMps = 1`
otherwise. -/
def spec_state_std (init_value : Nat) (slice_qp : Int) : Int :=
  let m : Int := (init_value >>> 4 : Nat) * 5 - 45
  let n : Int := ((init_value &&& 15 : Nat) <<< 3 : Nat) - 16
  let preCtxState : Int := av_clip (asr (m * av_clip slice_qp 0 51) 4 + n) 1 126
  if preCtxState ≤ 63 then (63 - preCtxState) * 2 else (preCtxState - 64) * 2 + 1

/-! ## WPP state save (`ff_hevc_save_states`) -/

/-- The trigger condition of `ff_hevc_save_states`:
entropy-coding sync enabled and `ctb_addr_ts % ctb_width == 2`, or
`ctb_width == 2` and `ctb_addr_ts % ctb_width == 0`. -/
def save_states_cond (sync : Bool) (ctb_addr_ts ctb_width : Nat) : Bool :=
  sync && (ctb_addr_ts % ctb_width == 2 ||
    (ctb_width == 2 && ctb_addr_ts % ctb_width == 0))

/-- `ff_hevc_save_states`: snapshot the whole per-slice context table when
the trigger condition holds (the `memcpy` of `HEVC_CONTEXTS` bytes). -/
def ff_hevc_save_states (sync : Bool) (ctb_addr_ts ctb_width : Nat)
    (table saved : List Int) : List Int :=
  if save_states_cond sync ctb_addr_ts ctb_width then table else saved

/-! ## Bypass-bin binarizations

The bypass bit source is an infinite bit sequence `f : ℕ → Bool` read at a
position `pos`; each `get_cabac_bypass` consumes one bit. -/

/-- The unary-prefix loop `while (prefix < maxBins && get_cabac_bypass(..))
prefix++;`, returning the prefix and the next read position.  Called with
`maxBins = CABAC_MAX_BIN`. -/
def unary_prefix_loop (f : Nat → Bool) (pos : Nat) : Nat → Nat × Nat
  | 0 => (0, pos)
  | maxBins + 1 =>
    if f pos then
      let r := unary_prefix_loop f (pos + 1) maxBins
      (r.1 + 1, r.2)
    else (0, pos)

/-- `for (i = 0; i < n; i++) suffix = (suffix << 1) | get_cabac_bypass(..);`:
read `n` bypass bits most-significant first into `acc`. -/
def read_fixed_bits (f : Nat → Bool) : Nat → Nat → Nat → Nat × Nat
  | pos, 0, acc => (acc, pos)
  | pos, n + 1, acc =>
    read_fixed_bits f (pos + 1) n (2 * acc + (if f pos then 1 else 0))

/-- `coeff_abs_level_remaining_decode` (generic C path, hevc_cabac.c):
unary prefix capped at `CABAC_MAX_BIN`; on hitting the cap the function logs
an error and returns 0; otherwise a Golomb-Rice / EGk suffix follows.
Returns the decoded value together with the next read position. -/
def coeff_abs_level_remaining_decode (rc_rice_param : Nat) (f : Nat → Bool)
    (pos : Nat) : Nat × Nat :=
  let pr := unary_prefix_loop f pos CABAC_MAX_BIN
  if pr.1 = CABAC_MAX_BIN then (0, pr.2)
  else if pr.1 < 3 then
    let sfx := read_fixed_bits f pr.2 rc_rice_param 0
    ((pr.1 <<< rc_rice_param) + sfx.1, sfx.2)
  else
    let prefix_minus3 := pr.1 - 3
    let sfx := read_fixed_bits f pr.2 (prefix_minus3 + rc_rice_param) 0
    ((((1 <<< prefix_minus3) + 3 - 1) <<< rc_rice_param) + sfx.1, sfx.2)

/-- The EG1 prefix loop of `mvd_decode`: starting from `ret = 2, k = 1`,
`while (k < CABAC_MAX_BIN && get_cabac_bypass(..)) { ret += 1 << k; k++; }`.
The fuel argument counts the remaining allowed iterations, `CABAC_MAX_BIN - k`.
Returns `(ret, k, pos)`. -/
def mvd_prefix_loop (f : Nat → Bool) : Nat → Nat → Nat → Nat → Nat × Nat × Nat
  | pos, ret, k, 0 => (ret, k, pos)
  | pos, ret, k, fuel + 1 =>
    if f pos then mvd_prefix_loop f (pos + 1) (ret + (1 <<< k)) (k + 1) fuel
    else (ret, k, pos)

/-- `mvd_decode` (hevc_cabac.c): EG1-style magnitude followed by a sign
bypass bit.  On the prefix reaching `CABAC_MAX_BIN` the function logs an
error and returns 0 (consuming no further bits).  The sign convention of
`get_cabac_bypass_sign(&cc, -ret)` — a set `mvd_sign_flag` bin yields the
negative value — is modelled from the spec since cabac_functions.h is not
part of this repository. -/
def mvd_decode (f : Nat → Bool) (pos : Nat) : Int × Nat :=
  let pr := mvd_prefix_loop f pos 2 1 (CABAC_MAX_BIN - 1)
  let ret := pr.1
  let k := pr.2.1
  let pos1 := pr.2.2
  if k = CABAC_MAX_BIN then (0, pos1)
  else
    let sfx := read_fixed_bits f pos1 k 0
    let mag : Nat := ret + sfx.1
    ((if f sfx.2 then -(mag : Int) else (mag : Int)), sfx.2 + 1)

/-! ## Rice-parameter and `stat_coeff` adaptation -/

/-- `update_rice` (generic C path, hevc_cabac.c).  `stat_coeff` is a
`uint8_t`, so the increment wraps modulo 256; the decrement is guarded by
`*stat_coeff > 0`. -/
def update_rice (stat_coeff : Nat) (last_coeff_abs_level_remaining : Nat)
    (c_rice_param : Nat) : Nat :=
  let x := last_coeff_abs_level_remaining >>> c_rice_param
  if x ≥ 3 then (stat_coeff + 1) % 256
  else if x = 0 ∧ stat_coeff > 0 then stat_coeff - 1
  else stat_coeff

/-- State threaded through the remainder loop of a subblock:
the current Rice parameter `c_rice_param`, the slice-level `stat_coeff`
counter, and whether the `stat_coeff` pointer is still non-NULL (it is
NULLed after the first remainder of the subblock). -/
structure RiceState where
  k : Nat
  stat : Nat
  statLive : Bool
deriving DecidableEq

/-- State at subblock start (`ff_hevc_hls_residual_coding`):
`c_rice_param = !rice_adaptation_enabled ? 0 : *stat_coeff >> 2`, and the
`stat_coeff` pointer is live exactly when adaptation is enabled. -/
def subset_start (rice_adaptation_enabled : Bool) (stat : Nat) : RiceState :=
  ⟨if rice_adaptation_enabled then stat >>> 2 else 0, stat,
   rice_adaptation_enabled⟩

/-- One iteration of the `do { .. } while (coded_vals != 0)` remainder loop
for a coded coefficient whose base level (1, 2 or 3 from the >1/>2 flags) is
`br.1` and whose decoded `coeff_abs_level_remaining` is `br.2`:

* `trans_coeff_level = *level + last_coeff_abs_level_remaining`;
* `update_rice` is applied once, from the first remainder only, after which
  the `stat_coeff` pointer is NULL;
* `if (trans_coeff_level > (3 << c_rice_param)) c_rice_param =
  rice_adaptation_enabled ? c_rice_param + 1 : FFMIN(c_rice_param + 1, 4);`.
-/
def coded_step (rice_adaptation_enabled : Bool) (s : RiceState)
    (br : Nat × Nat) : RiceState :=
  let trans_coeff_level := br.1 + br.2
  let stat1 := if s.statLive then update_rice s.stat br.2 s.k else s.stat
  let k1 :=
    if trans_coeff_level > 3 <<< s.k then
      (if rice_adaptation_enabled then s.k + 1 else min (s.k + 1) 4)
    else s.k
  ⟨k1, stat1, false⟩

/-- The remainder loop over the coded coefficients of one subblock, given
the list of (base level, decoded remainder) pairs in decode order. -/
def subset_rice_run (rice_adaptation_enabled : Bool) (s : RiceState)
    (l : List (Nat × Nat)) : RiceState :=
  l.foldl (coded_step rice_adaptation_enabled) s

/-- The claim's Rice update rule: `k = min(k+1, 4)` exactly when the decoded
remainder exceeds `3 << k` (this is the rule under test; the code differs). -/
def k_claimed (k0 : Nat) (l : List (Nat × Nat)) : Nat :=
  l.foldl (fun k br => if br.2 > 3 <<< k then min (k + 1) 4 else k) k0

/-- The amended Rice update rule, read off the code: the comparison is
against the reconstructed level `base + remainder`, and with persistent rice
adaptation the increment is not capped at 4. -/
def k_amended (rice_adaptation_enabled : Bool) (k0 : Nat)
    (l : List (Nat × Nat)) : Nat :=
  l.foldl (fun k br =>
    if br.1 + br.2 > 3 <<< k then
      (if rice_adaptation_enabled then k + 1 else min (k + 1) 4)
    else k) k0

/-- The claim's `stat_coeff` update (under test): from the first remainder
only, incremented if `remainder >> k ≥ 3`, decremented if `k > 0` and
`remainder == 0`, clamped to [0, 255]. -/
def stat_claimed (stat : Nat) (l : List (Nat × Nat)) : Nat :=
  match l with
  | [] => stat
  | br :: _ =>
    let k := stat >>> 2
    if br.2 >>> k ≥ 3 then min (stat + 1) 255
    else if k > 0 ∧ br.2 = 0 then stat - 1
    else stat

/-- The amended `stat_coeff` update, read off the code: updated once per
subblock from the first remainder, incremented (mod 256) if
`remainder >> k ≥ 3`, decremented if `remainder >> k == 0` and
`stat_coeff > 0`. -/
def stat_amended (stat : Nat) (l : List (Nat × Nat)) : Nat :=
  match l with
  | [] => stat
  | br :: _ => update_rice stat br.2 (stat >>> 2)

/-! ## Sign data hiding -/

/-- The `sign_hidden` decision of `ff_hevc_hls_residual_coding` (the
`n_end > 1` path): zero under the disabling conditions, else hidden exactly
when `significant_coeff_flag_idx[0] - significant_coeff_flag_idx[n_end-1] >
3` (scan positions, with the first-decoded position the larger). -/
def sign_hidden_decision (sign_data_hiding_flag cu_transquant_bypass_flag
    pred_mode_is_intra implicit_rdpcm_enabled trans_skip_or_bypass
    explicit_rdpcm_flag : Bool) (pred_mode_intra : Nat)
    (idx_first idx_last : Nat) : Bool :=
  if ¬ sign_data_hiding_flag ∨ cu_transquant_bypass_flag ∨
      (pred_mode_is_intra ∧ implicit_rdpcm_enabled ∧ trans_skip_or_bypass ∧
        (pred_mode_intra = 10 ∨ pred_mode_intra = 26)) ∨
      explicit_rdpcm_flag
  then false
  else decide ((idx_first : Int) - (idx_last : Int) > 3)

/-- Number of `coeff_sign_flag` bypass bins read:
`nb_significant_coeff_flag - sign_hidden`. -/
def num_sign_bins (nb : Nat) (sign_hidden : Bool) : Nat :=
  nb - (if sign_hidden then 1 else 0)

/-- Negate the last element of the level list
(`levels[n_end - 1] = -levels[n_end - 1]`). -/
def negate_last : List Int → List Int
  | [] => []
  | [x] => [-x]
  | x :: xs => x :: negate_last xs

/-- `if (sign_hidden && (sum_abs & 1) != 0) levels[n_end-1] = -levels[...]`. -/
def apply_sign_hiding (sign_hidden : Bool) (sum_abs : Nat)
    (levels : List Int) : List Int :=
  if sign_hidden ∧ sum_abs &&& 1 ≠ 0 then negate_last levels else levels

/-! ## Dequantization -/

/-- `level_scale[] = { 40, 45, 51, 57, 64, 72 }`. -/
def level_scale : List Nat := [40, 45, 51, 57, 64, 72]

/-- `rem6[51 + 4*6 + 1]` lookup table of `ff_hevc_hls_residual_coding`
(the initializer lists 74 values; remaining array entries are zero,
matched by the `getD _ _ 0` lookups below). -/
def rem6 : List Nat :=
[
  0, 1, 2, 3, 4, 5, 0, 1, 2, 3, 4, 5, 0, 1, 2, 3, 4, 5, 0, 1, 2,
  3, 4, 5, 0, 1, 2, 3, 4, 5, 0, 1, 2, 3, 4, 5, 0, 1, 2, 3, 4, 5,
  0, 1, 2, 3, 4, 5, 0, 1, 2, 3, 4, 5, 0, 1, 2, 3, 4, 5, 0, 1, 2, 3,
  4, 5, 0, 1, 2, 3, 4, 5, 0, 1
]

/-- `div6[51 + 4*6 + 1]` lookup table of `ff_hevc_hls_residual_coding`. -/
def div6 : List Nat :=
[
  0, 0, 0, 0, 0, 0, 1, 1, 1, 1, 1, 1, 2, 2, 2, 2, 2, 2, 3, 3, 3,
  3, 3, 3, 4, 4, 4, 4, 4, 4, 5, 5, 5, 5, 5, 5, 6, 6, 6, 6, 6, 6,
  7, 7, 7, 7, 7, 7, 8, 8, 8, 8, 8, 8, 9, 9, 9, 9, 9, 9, 10, 10, 10, 10,
  10, 10, 11, 11, 11, 11, 11, 11, 12, 12
]

/-- The non-bypass scale/shift derivation of `ff_hevc_hls_residual_coding`:
`shift = bit_depth + log2_trafo_size - 6; scale = level_scale[rem6[qp]];`
then the `div6[qp]` power of two is folded into whichever of the two it
fits. -/
def derive_flat_dequant (bit_depth log2_trafo_size qp : Nat) : Nat × Nat :=
  let shift := bit_depth + log2_trafo_size - 6
  let scale := level_scale.getD (rem6.getD qp 0) 0
  let d := div6.getD qp 0
  if d ≥ shift then (scale <<< (d - shift), 0) else (scale, shift - d)

/-- `sixteen_scale`: the flat matrix used when no scaling list applies. -/
def sixteen_scale : List Nat := List.replicate 64 16

/-- `unit_scale`: the flat matrix of the transquant-bypass branch. -/
def unit_scale : List Nat := List.replicate 64 1

/-- `dc_scale` in the flat (non-scaling-list) configuration. -/
def flat_dc_scale : Nat := 16

/-- Dequantization parameters `(scale_matrix, shift, scale, dc_scale)` of
the transquant-bypass branch of `ff_hevc_hls_residual_coding`. -/
def bypass_dequant : List Nat × Nat × Nat × Nat := (unit_scale, 0, 2, 1)

/-- `trans_scale_sat` (generic C path, hevc_cabac.c):
`(((level * (int)(scale * scale_m)) >> shift) + 1) >> 1`, saturated to
[-32768, 32767].  The two products are `int` products, wrapped to 32 bits. -/
def trans_scale_sat (level : Int) (scale scale_m : Int) (shift : Nat) : Int :=
  let trans_coeff_level :=
    asr (asr (wrap32 (level * wrap32 (scale * scale_m))) shift + 1) 1
  if trans_coeff_level < -32768 then -32768
  else if trans_coeff_level > 32767 then 32767
  else trans_coeff_level

/-- The cross-component-prediction update
`coeffs[i] = coeffs[i] + ((lc->tu.res_scale_val * coeffs_y[i]) >> 3);`
with the implicit `int` → `int16_t` store conversion. -/
def cross_pf_coeff (coeff res_scale_val coeff_y : Int) : Int :=
  int16_cast (coeff + asr (wrap32 (res_scale_val * coeff_y)) 3)

/-! ## Coefficient output buffer -/

/-- The `memset(coeffs, 0, trafo_size * trafo_size * sizeof(int16_t))`
performed by `ff_hevc_hls_residual_coding` before decoding (the non-RPI
path).  `n` is the number of `int16_t` entries cleared. -/
def memset_zero (n : Nat) (buf : Nat → Int) : Nat → Int :=
  fun i => if i < n then 0 else buf i

/-- Scattered stores `coeffs[t_offset] = ..` of decoded significant
coefficients, in decode order. -/
def write_coeffs (ws : List (Nat × Int)) (buf : Nat → Int) : Nat → Int :=
  ws.foldl (fun b w => Function.update b w.1 w.2) buf

/-- The coefficient buffer produced by `ff_hevc_hls_residual_coding` for a
block of size `2^log2_trafo_size × 2^log2_trafo_size`, abstracting the
decode to the list of (offset, value) stores it performs: the function
first zeroes the whole block, then writes each decoded significant
coefficient. -/
def residual_output (log2_trafo_size : Nat) (ws : List (Nat × Int))
    (init : Nat → Int) : Nat → Int :=
  write_coeffs ws
    (memset_zero ((1 <<< log2_trafo_size) * (1 <<< log2_trafo_size)) init)

/-! ## The single-significant-coefficient subset path -/

/-- The `n_end == 1` special case of `ff_hevc_hls_residual_coding` with
persistent rice adaptation disabled: `trans_coeff_level = 1`; a context bin
(`gt1`) raises it to 2 and gates a second context bin (`gt2`, setting
`coded_val`); one bypass sign bin; if `coded_val`, the level becomes
`3 + coeff_abs_level_remaining_decode(0)`.  Returns the signed level and
the next bypass read position. -/
def decode_single_coeff (gt1 gt2 : Bool) (f : Nat → Bool) (pos : Nat) :
    Int × Nat :=
  let level1 : Nat := if gt1 then 2 else 1
  let coded_val := gt1 && gt2
  let coeff_sign_flag := f pos
  let pos1 := pos + 1
  let lr : Nat × Nat :=
    if coded_val then
      let r := coeff_abs_level_remaining_decode 0 f pos1
      (3 + r.1, r.2)
    else (level1, pos1)
  ((if coeff_sign_flag then -(lr.1 : Int) else (lr.1 : Int)), lr.2)

/-! ## Helper lemmas -/

/-- The final encoding step of `cabac_init_state` agrees with the H.265
standard's `(pStateIdx << 1) | valMps` encoding of
`Clip3(1, 126, preCtxState)`, for every integer `preCtxState`. -/
theorem state_encode_eq (Y : Int) :
    (let pre := 2 * Y - 127
     let pre2 := if pre < 0 then -pre - 1 else pre
     if pre2 > 124 then 124 + pre2 % 2 else pre2) =
    (let Xc := av_clip Y 1 126
     if Xc ≤ 63 then (63 - Xc) * 2 else (Xc - 64) * 2 + 1) := by
  simp only [av_clip]
  split_ifs <;> omega

/-- Pointwise form: the state stored by `cabac_init_state` is the standard
encoding. -/
theorem cabac_state_of_eq_std (v : Nat) (qp : Int) :
    cabac_state_of v qp = spec_state_std v qp := by
  have h := state_encode_eq
    (asr ((((v >>> 4 : Nat) : Int) * 5 - 45) * av_clip qp 0 51) 4 +
      ((((v &&& 15 : Nat) <<< 3 : Nat) : Int) - 16))
  simpa [cabac_state_of, spec_state_std] using h

/-- Once the `stat_coeff` pointer has been NULLed, the remainder loop leaves
`stat_coeff` unchanged. -/
theorem subset_rice_run_stat_frozen (e : Bool) (s : RiceState)
    (l : List (Nat × Nat)) (h : s.statLive = false) :
    (subset_rice_run e s l).stat = s.stat := by
  induction l generalizing s with
  | nil => rfl
  | cons br l ih =>
    have := ih (coded_step e s br)
    simp [coded_step, h] at this
    simpa [subset_rice_run, coded_step, h] using this

/-- `update_rice` keeps a `uint8_t`-ranged counter in range. -/
theorem update_rice_le (stat r k : Nat) (h : stat ≤ 255) :
    update_rice stat r k ≤ 255 := by
  unfold update_rice
  dsimp only
  split_ifs <;> omega

/-- A fully-set bypass stream drives the capped unary loop to its bound. -/
theorem unary_prefix_loop_all_true (f : Nat → Bool) (h : ∀ i, f i = true) :
    ∀ n pos, unary_prefix_loop f pos n = (n, pos + n) := by
  intro n
  induction n with
  | zero => intro pos; rfl
  | succ n ih =>
    intro pos
    simp [unary_prefix_loop, h pos, ih (pos + 1)]
    omega

/-- A fully-set bypass stream drives the EG1 prefix loop of `mvd_decode`
through all of its fuel. -/
theorem mvd_prefix_loop_all_true (f : Nat → Bool) (h : ∀ i, f i = true) :
    ∀ fuel pos ret k, ∃ r,
      mvd_prefix_loop f pos ret k fuel = (r, k + fuel, pos + fuel) := by
  intro fuel
  induction fuel with
  | zero => intro pos ret k; exact ⟨ret, rfl⟩
  | succ fuel ih =>
    intro pos ret k
    obtain ⟨r, hr⟩ := ih (pos + 1) (ret + (1 <<< k)) (k + 1)
    refine ⟨r, ?_⟩
    simp [mvd_prefix_loop, h pos, hr]
    omega

/-- Scattered coefficient stores do not touch positions they do not name. -/
theorem write_coeffs_not_mem (ws : List (Nat × Int)) (buf : Nat → Int)
    (i : Nat) (h : ∀ w ∈ ws, w.1 ≠ i) : write_coeffs ws buf i = buf i := by
  induction ws generalizing buf with
  | nil => rfl
  | cons w ws ih =>
    have hw : w.1 ≠ i := h w (List.mem_cons_self w ws)
    have : write_coeffs ws (Function.update buf w.1 w.2) i =
        Function.update buf w.1 w.2 i :=
      ih _ (fun u hu => h u (List.mem_cons_of_mem w hu))
    simpa [write_coeffs, Function.update_noteq (Ne.symm hw)] using this

/-! ## C1 — context initialization -/

set_option maxRecDepth 4000 in
/-- C1 counterexample: for an I slice (init type 0) at `slice_qp = 51`, the
context for `intra_chroma_pred_mode` (ctxIdx 18, `init_value = 63`) is
stored as 110, while the claim's formula — which replaces `pre` by its
absolute value — gives 111.  (`pre = -111` here; the code computes the
one's complement `-pre - 1 = 110`, not `|pre| = 111`.) -/
theorem C1_counterexample :
    init_values_0.getD 18 0 = 63 ∧
    (cabac_init_state 0 51).getD 18 0 = 110 ∧
    spec_state_claimed 63 51 = 111 ∧
    ((110 : Int) ≠ 111) := by decide

/-- C1 (amended): context initialization picks init type I→0, P→2 if
`cabac_init_flag` else 1, B→1 if flag else 2, and sets every context state
to the H.265 standard encoding `(pStateIdx << 1) | valMps` of
`preCtxState = Clip3(1, 126, ((m * clamp(slice_qp, 0, 51)) >> 4) + n)` —
equivalently, negative `pre` is replaced by its one's complement
`-pre - 1` (not by `|pre|`) before the `> 124` cap. -/
theorem C1_init_state :
    (∀ flag, init_type SliceTy.I flag = 0) ∧
    (∀ flag, init_type SliceTy.P flag = if flag then 2 else 1) ∧
    (∀ flag, init_type SliceTy.B flag = if flag then 1 else 2) ∧
    (∀ it : Fin 3, ∀ qp : Int,
      cabac_init_state it qp =
        (init_values.getD it []).map (fun v => spec_state_std v qp)) := by
  refine ⟨?_, ?_, ?_, ?_⟩
  · intro flag; cases flag <;> decide
  · intro flag; cases flag <;> decide
  · intro flag; cases flag <;> decide
  · intro it qp
    unfold cabac_init_state
    exact List.map_congr_left (fun a _ => cabac_state_of_eq_std a qp)

/-! ## C2 — Rice parameter adaptation -/

/-- C2 counterexample.  Default configuration: base level 3 (both >1 and >2
flags set) with remainder 1 at `k = 0` — the code raises `k` to 1 because
the reconstructed level 4 exceeds `3 << 0`, while the claim's rule (test the
remainder) leaves `k = 0`.  Persistent-rice configuration: seeding
`stat_coeff = 20` gives `k = 5`, and two large levels drive the code's `k`
to 7, above the claimed `min(k+1, 4)` cap. -/
theorem C2_counterexample :
    (subset_rice_run false (subset_start false 0) [(3, 1)]).k = 1 ∧
    k_claimed 0 [(3, 1)] = 0 ∧
    (subset_rice_run true (subset_start true 20) [(1, 100), (3, 200)]).k = 7 ∧
    k_claimed (subset_start true 20).k [(1, 100), (3, 200)] = 4 := by decide

/-- C2 (amended): in `coeff_abs_level_remaining` decoding the Rice
parameter is updated exactly when the reconstructed level (base +
remainder) is greater than `3 << k`; the update is `min(k+1, 4)` in the
default configuration and the uncapped `k+1` when persistent rice
adaptation is enabled. -/
theorem C2_rice_update (rice_adaptation_enabled : Bool) (s : RiceState)
    (l : List (Nat × Nat)) :
    (subset_rice_run rice_adaptation_enabled s l).k =
      k_amended rice_adaptation_enabled s.k l := by
  induction l generalizing s with
  | nil => rfl
  | cons br l ih =>
    simpa [subset_rice_run, k_amended, coded_step] using
      ih (coded_step rice_adaptation_enabled s br)

/-! ## C3 — unary prefix overflow -/

/-- C3 counterexample: on an all-ones bypass stream the remainder decoder
hits `CABAC_MAX_BIN = 31` and returns the ordinary value 0 (no error is
propagated), `mvd_decode` likewise returns 0, and the single-coefficient
path goes on to emit the coefficient `-1224` (base level 3, remainder 0,
sign set, dequantized) into the output buffer — the block is not zero. -/
theorem C3_counterexample :
    coeff_abs_level_remaining_decode 0 (fun _ => true) 0 = (0, 31) ∧
    mvd_decode (fun _ => true) 0 = (0, 30) ∧
    decode_single_coeff true true (fun _ => true) 0 = (-3, 32) ∧
    residual_output 2 [(0, trans_scale_sat (-3) 51 16 0)] (fun _ => 0) 0 =
      -1224 ∧
    ((-1224 : Int) ≠ 0) := by decide

/-- C3 (amended): when a unary prefix reaches `CABAC_MAX_BIN = 31` the
decoder logs an error and substitutes 0 for the decoded value —
`coeff_abs_level_remaining_decode` returns remainder 0 after the 31 prefix
bins, `mvd_decode` returns 0 after its 30 prefix bins — and decoding of the
block continues with that value. -/
theorem C3_overflow_returns_zero (f : Nat → Bool) (pos k : Nat)
    (h : ∀ i, f i = true) :
    coeff_abs_level_remaining_decode k f pos = (0, pos + 31) ∧
    mvd_decode f pos = (0, pos + 30) := by
  constructor
  · unfold coeff_abs_level_remaining_decode
    rw [unary_prefix_loop_all_true f h]
    rfl
  · unfold mvd_decode
    obtain ⟨r, hr⟩ := mvd_prefix_loop_all_true f h (CABAC_MAX_BIN - 1) pos 2 1
    rw [hr]
    rfl

/-- Witness for C3 (amended) at the all-ones stream, position 0, `k = 0`. -/
theorem C3_overflow_returns_zero_witness :
    (∀ i : Nat, (fun _ => true) i = true) ∧
    coeff_abs_level_remaining_decode 0 (fun _ => true) 0 = (0, 0 + 31) ∧
    mvd_decode (fun _ => true) 0 = (0, 0 + 30) :=
  ⟨fun _ => rfl, C3_overflow_returns_zero (fun _ => true) 0 0 (fun _ => rfl)⟩

/-! ## C4 — context-table size -/

set_option maxRecDepth 4000 in
/-- C4 counterexample: the per-element ctxIdx offsets plus the per-element
context counts sum to 178, and each `init_values` row supplies exactly 178
initializer entries — not the claimed 188. -/
theorem C4_counterexample :
    elem_offset.getD 48 0 + ctx_counts.getD 48 0 = 178 ∧
    ctx_counts.sum = 178 ∧
    init_values_0.length = 178 ∧
    ((178 : Nat) ≠ 188) := by decide

set_option maxRecDepth 4000 in
/-- C4 (amended): the context-model table holds exactly 178 single-byte
probability states: `elem_offset` lists the partial sums of the per-element
context counts, which total 178; each `init_values` row has 178 entries;
every context index an element's decoder derives from its offset stays
below 178; `cabac_init_state` produces a 178-state table; and the WPP save
snapshot (`ff_hevc_save_states`) copies that whole 178-state table when its
trigger condition holds. -/
theorem C4_context_table (it : Fin 3) (qp : Int) (sync : Bool)
    (ctb_addr_ts ctb_width : Nat) (saved : List Int) :
    (List.range 49).map (fun j => (ctx_counts.take j).sum) = elem_offset ∧
    ctx_counts.sum = 178 ∧
    ((List.range 49).all
      (fun j => elem_offset.getD j 0 + ctx_counts.getD j 0 ≤ 178)) = true ∧
    init_values.map List.length = [178, 178, 178] ∧
    (cabac_init_state it qp).length = 178 ∧
    (ff_hevc_save_states sync ctb_addr_ts ctb_width
        (cabac_init_state it qp) saved).length =
      (if save_states_cond sync ctb_addr_ts ctb_width then 178
       else saved.length) := by
  have hlen : (cabac_init_state it qp).length = 178 := by
    fin_cases it <;>
      simp [cabac_init_state, init_values, init_values_0, init_values_1,
        init_values_2]
  refine ⟨by decide, by decide, by decide, by decide, hlen, ?_⟩
  unfold ff_hevc_save_states
  split_ifs <;> simp [hlen]

/-! ## C5 — sign data hiding -/

/-- C5: for a subblock with at least two significant coefficients, the sign
of the last coefficient is hidden exactly when `sign_data_hiding_flag` is
set, the CU is not transquant-bypass, it is not the
intra/implicit-RDPCM/transform-skip case with intra prediction mode 10 or
26, `explicit_rdpcm_flag` is clear, and the first significant scan position
exceeds the last by more than 3; when hidden, one fewer sign bin is read
and the last level is negated exactly when the absolute-level sum is odd;
otherwise all signs are read as bypass bins. -/
theorem C5_sign_hiding (sdh bypass intra implicit tsob expl : Bool)
    (pmi idx_first idx_last sum_abs nb : Nat) (levels : List Int) :
    (sign_hidden_decision sdh bypass intra implicit tsob expl pmi idx_first
        idx_last = true ↔
      (sdh = true ∧ bypass = false ∧
        ¬(intra = true ∧ implicit = true ∧ tsob = true ∧
          (pmi = 10 ∨ pmi = 26)) ∧
        expl = false ∧ (idx_first : Int) - (idx_last : Int) > 3)) ∧
    apply_sign_hiding true sum_abs levels =
      (if sum_abs % 2 = 1 then negate_last levels else levels) ∧
    apply_sign_hiding false sum_abs levels = levels ∧
    num_sign_bins nb true = nb - 1 ∧
    num_sign_bins nb false = nb := by
  refine ⟨?_, ?_, ?_, rfl, rfl⟩
  · unfold sign_hidden_decision
    split_ifs with hc
    · simp only [Bool.false_eq_true, false_iff]
      rintro ⟨h1, h2, h3, h4, h5⟩
      rcases hc with h | h | h | h
      · exact h h1
      · simp [h] at h2
      · exact h3 h
      · simp [h] at h4
    · push_neg at hc
      simp only [Bool.not_eq_true] at hc
      simp only [decide_eq_true_eq]
      tauto
  · unfold apply_sign_hiding
    rcases Nat.mod_two_eq_zero_or_one sum_abs with h | h <;>
      simp [Nat.and_one_is_mod, h]
  · simp [apply_sign_hiding]

/-! ## C6 — single DC coefficient worked example -/

/-- C6 counterexample: at `qp = 26` (8-bit, 4×4) the code derives
`rem6[26] = 2`, so `scale = level_scale[2] = 51`, and `div6[26] = 4` equals
the base shift `8 + 2 - 6 = 4`, so `shift = 0` — not the claimed
`scale = 40, shift = 2` — and the emitted DC coefficient is
`((1*51*16) >> 0 + 1) >> 1 = 408`, not 80. -/
theorem C6_counterexample :
    derive_flat_dequant 8 2 26 = (51, 0) ∧
    derive_flat_dequant 8 2 26 ≠ (40, 2) ∧
    residual_output 2 [(0, trans_scale_sat 1 51 16 0)] (fun _ => 0) 0 =
      408 ∧
    ((408 : Int) ≠ 80) := by decide

/-- C6 (amended): for a 4×4 luma intra block at `qp = 26` with flat
dequantization (8-bit), a bitstream encoding `last=(0,0), sig=1, gt1=0,
sign=0` produces `scale = 51`, `shift = 0` (`div6[26] = 4` is folded into
the shift), `dc_scale = 16`, and `coefficient[0] =
sat16(((1*51*16) >> 0 + 1) >> 1) = 408` with every other coefficient
zero. -/
theorem C6_single_dc :
    derive_flat_dequant 8 2 26 = (51, 0) ∧
    flat_dc_scale = 16 ∧
    decode_single_coeff false false (fun _ => false) 0 = (1, 1) ∧
    trans_scale_sat 1 51 16 0 = 408 ∧
    (List.range 16).map
        (residual_output 2 [(0, trans_scale_sat 1 51 16 0)] (fun _ => 7)) =
      408 :: List.replicate 15 0 := by decide

/-! ## C7 — persistent `stat_coeff` adaptation -/

/-- C7 counterexample: with `stat_coeff = 4` the seeded Rice parameter is
`k = 1`; a first remainder of 1 has `remainder >> k = 0`, so the code
decrements `stat_coeff` to 3 even though the remainder is nonzero — the
claim's decrement condition (`k > 0` and `remainder == 0`) would leave it
at 4. -/
theorem C7_counterexample :
    (subset_rice_run true (subset_start true 4) [(1, 1)]).stat = 3 ∧
    stat_claimed 4 [(1, 1)] = 4 ∧
    ((3 : Nat) ≠ 4) := by decide

/-- C7 (amended): with persistent rice adaptation, every subblock seeds
`k = stat_coeff >> 2`, and `stat_coeff` is updated at most once per
subblock, from the first decoded remainder only: incremented (modulo 256)
if `remainder >> k ≥ 3`, decremented if `remainder >> k == 0` and
`stat_coeff > 0`; the value never leaves [0, 255]. -/
theorem C7_stat_update (stat : Nat) (l : List (Nat × Nat))
    (h : stat ≤ 255) :
    (subset_start true stat).k = stat >>> 2 ∧
    (subset_rice_run true (subset_start true stat) l).stat =
      stat_amended stat l ∧
    (subset_rice_run true (subset_start true stat) l).stat ≤ 255 := by
  refine ⟨rfl, ?_, ?_⟩ <;>
  · cases l with
    | nil => first | rfl | exact h
    | cons br l =>
      have hstep :
          subset_rice_run true (subset_start true stat) (br :: l) =
            subset_rice_run true
              ⟨if br.1 + br.2 > 3 <<< (stat >>> 2) then stat >>> 2 + 1
                else stat >>> 2,
               update_rice stat br.2 (stat >>> 2), false⟩ l := by
        simp [subset_rice_run, subset_start, coded_step]
      rw [hstep, subset_rice_run_stat_frozen _ _ _ rfl]
      first
      | rfl
      | exact update_rice_le stat br.2 (stat >>> 2) h

/-- Witness for C7 (amended) at `stat_coeff = 4` with first remainder 1. -/
theorem C7_stat_update_witness :
    (4 : Nat) ≤ 255 ∧
    ((subset_start true 4).k = 4 >>> 2 ∧
      (subset_rice_run true (subset_start true 4) [(1, 1)]).stat =
        stat_amended 4 [(1, 1)] ∧
      (subset_rice_run true (subset_start true 4) [(1, 1)]).stat ≤ 255) :=
  ⟨by decide, C7_stat_update 4 [(1, 1)] (by decide)⟩

/-! ## C8 — coefficient saturation -/

/-- C8: every coefficient value the residual decoder writes is in
[-32768, 32767]: `trans_scale_sat` saturates to this range for every
level, scale, scale_m and shift, and the cross-component-prediction update
stores through an `int16_t` conversion that also lands in this range. -/
theorem C8_saturation (level scale scale_m : Int) (shift : Nat)
    (coeff res_scale_val coeff_y : Int) :
    (-32768 ≤ trans_scale_sat level scale scale_m shift ∧
      trans_scale_sat level scale scale_m shift ≤ 32767) ∧
    (-32768 ≤ cross_pf_coeff coeff res_scale_val coeff_y ∧
      cross_pf_coeff coeff res_scale_val coeff_y ≤ 32767) := by
  constructor
  · unfold trans_scale_sat
    dsimp only
    split_ifs <;> omega
  · unfold cross_pf_coeff int16_cast
    constructor <;> omega

/-! ## C9 — transquant bypass identity -/

/-- C9: a transquant-bypass block uses the flat all-ones scale matrix with
`scale = 2, shift = 0, dc_scale = 1`, and on that configuration the
scale-and-saturate step is the identity on every 16-bit level:
`((level * 2 * 1) >> 0 + 1) >> 1 = level`. -/
theorem C9_bypass_identity (level : Int) (h1 : -32768 ≤ level)
    (h2 : level ≤ 32767) :
    bypass_dequant = (List.replicate 64 1, 0, 2, 1) ∧
    trans_scale_sat level 2 1 0 = level := by
  refine ⟨rfl, ?_⟩
  simp only [trans_scale_sat, asr, wrap32]
  norm_num
  omega

/-- Witness for C9 at `level = -12345`. -/
theorem C9_bypass_identity_witness :
    (-32768 : Int) ≤ -12345 ∧ (-12345 : Int) ≤ 32767 ∧
    (bypass_dequant = (List.replicate 64 1, 0, 2, 1) ∧
      trans_scale_sat (-12345) 2 1 0 = -12345) :=
  ⟨by decide, by decide, C9_bypass_identity (-12345) (by decide) (by decide)⟩

/-! ## C10 — buffer zeroing -/

/-- C10: the residual decoder itself zeroes all `4^L` entries of the
coefficient buffer before decoding, so on return every position not
assigned a decoded significant coefficient equals 0, whatever the buffer
held before the call. -/
theorem C10_buffer_zeroed (log2_trafo_size : Nat) (ws : List (Nat × Int))
    (init : Nat → Int) (i : Nat) (hi : i < 4 ^ log2_trafo_size)
    (h : ∀ w ∈ ws, w.1 ≠ i) :
    residual_output log2_trafo_size ws init i = 0 := by
  have hsz : (1 <<< log2_trafo_size) * (1 <<< log2_trafo_size) =
      4 ^ log2_trafo_size := by
    rw [Nat.shiftLeft_eq, one_mul, ← mul_pow]
    norm_num
  unfold residual_output
  rw [write_coeffs_not_mem _ _ _ h]
  unfold memset_zero
  rw [hsz]
  simp [hi]

/-- Witness for C10: a 4×4 block with one decoded coefficient at offset 0,
read at the untouched offset 5, over a garbage-initialized buffer. -/
theorem C10_buffer_zeroed_witness :
    (5 : Nat) < 4 ^ 2 ∧ (∀ w ∈ [((0 : Nat), (408 : Int))], w.1 ≠ 5) ∧
    residual_output 2 [(0, 408)] (fun _ => 7) 5 = 0 :=
  ⟨by decide, by decide, C10_buffer_zeroed 2 _ _ 5 (by decide) (by decide)⟩

end HevcCabac
